import Mathlib

/-!
Verification of the numeric core of `src/app.py` (gas condensate dew-point
temperature estimation).  The pandas/numpy column arithmetic of lines 82-104
is embedded as functions over the real numbers: each dataframe column
operation is a pointwise real-valued operation, `np.log` is `Real.log`,
`np.log10 x` is `Real.log x / Real.log 10`, `np.exp` is `Real.exp`, and the
float power `**` with real exponent is `Real.rpow`.  Aggregations
(`np.mean`, `np.max`, `np.min`) act on the list of per-row values.
-/

namespace App

/-- Line 82: `edited_data['Gamma'] = edited_data[gamma_col] / 28.97`.
The selected gravity column is divided by 28.97 unconditionally; the
column name is never inspected. -/
noncomputable def Gamma (v : ℝ) : ℝ := v / 28.97

/-- Line 85: `P_psi = P_kPa / 6.89476`. -/
noncomputable def P_psi (pkpa : ℝ) : ℝ := pkpa / 6.89476

/-- Line 72: sidebar default for the Safamirzaei constant A. -/
noncomputable def A_default : ℝ := 194.681789

/-- Line 73: sidebar default for the Safamirzaei constant B. -/
noncomputable def B_default : ℝ := 0.044232

/-- Line 74: sidebar default for the Safamirzaei constant C. -/
noncomputable def C_default : ℝ := 0.189829

/-- Line 88: `A * (gamma ** B) * (np.log(P_kPa) ** C)`. -/
noncomputable def T_Safamirzaei (A B C pkpa g : ℝ) : ℝ :=
  A * g ^ B * Real.log pkpa ^ C

/-- `np.log10`: base-10 logarithm. -/
noncomputable def log10 (x : ℝ) : ℝ := Real.log x / Real.log 10

/-- Line 89: the Motiee correlation in degrees Celsius. -/
noncomputable def T_motiee_C (ppsi g : ℝ) : ℝ :=
  -283.24469 + 78.99667 * log10 ppsi - 5.352544 * log10 ppsi ^ 2
    + 349.473877 * g - 150.854675 * g ^ 2 - 27.604065 * g * log10 ppsi

/-- Line 90: `edited_data['T_Motiee'] = T_motiee_C + 273.15`. -/
noncomputable def T_Motiee (pkpa g : ℝ) : ℝ :=
  T_motiee_C (P_psi pkpa) g + 273.15

/-- Line 91: the Towler & Mokhatab correlation in degrees Fahrenheit. -/
noncomputable def T_towler_F (ppsi g : ℝ) : ℝ :=
  13.47 * Real.log ppsi + 34.27 * Real.log g
    - 1.675 * (Real.log ppsi * Real.log g) - 20.35

/-- Line 92: `edited_data['T_Towler'] = (T_towler_F - 32) * 5 / 9 + 273.15`. -/
noncomputable def T_Towler (pkpa g : ℝ) : ℝ :=
  (T_towler_F (P_psi pkpa) g - 32) * 5 / 9 + 273.15

/-- Line 94: the Ghayyem correlation in degrees Fahrenheit
(`lnP = np.log(P_psi)` from line 93 is inlined). -/
noncomputable def T_ghayyem_F (ppsi g : ℝ) : ℝ :=
  -26.115 - 23.728 / g + 23.942 * Real.log ppsi
    - 0.738 * Real.exp (g ^ (-2.3 : ℝ)) - 1.135 * Real.log ppsi ^ 2
    + 0.443 * Real.log ppsi * Real.exp (g ^ (-1.7 : ℝ))

/-- Line 95: `edited_data['T_Ghayyem'] = (T_ghayyem_F - 32) * 5 / 9 + 273.15`. -/
noncomputable def T_Ghayyem (pkpa g : ℝ) : ℝ :=
  (T_ghayyem_F (P_psi pkpa) g - 32) * 5 / 9 + 273.15

/-- Per-row relative errors `np.abs((exp_T - pred) / exp_T)` (lines 100-103),
as the list of values over the rows of the two columns. -/
noncomputable def relErrList (expT pred : List ℝ) : List ℝ :=
  List.zipWith (fun e p => |(e - p) / e|) expT pred

/-- `np.mean` over a column: sum divided by length. -/
noncomputable def npMean (xs : List ℝ) : ℝ := xs.sum / xs.length

/-- `np.max` over a nonempty column (the empty case is never reached in the
claims; numpy raises on it). -/
noncomputable def npMax : List ℝ → ℝ
  | [] => 0
  | x :: xs => xs.foldl max x

/-- `np.min` over a nonempty column. -/
noncomputable def npMin : List ℝ → ℝ
  | [] => 0
  | x :: xs => xs.foldl min x

/-- Lines 99-104: `calc_errors` returns `(mape, mipe, ard, rel_error)` where
`rel_error = np.mean(np.abs((exp_T - pred) / exp_T)) * 100`,
`mape = np.max(...) * 100`, `mipe = np.min(...) * 100`, `ard = np.mean(...) * 100`. -/
noncomputable def calc_errors (expT pred : List ℝ) : ℝ × ℝ × ℝ × ℝ :=
  (npMax (relErrList expT pred) * 100,
   npMin (relErrList expT pred) * 100,
   npMean (relErrList expT pred) * 100,
   npMean (relErrList expT pred) * 100)

/-- Modelled from the spec (section 4.1): recognition of a molecular-weight
column by case-insensitive name match against the aliases
"molecular_weight" and "mw".  No such check exists anywhere in `src/app.py`. -/
def isMolWeightAlias (name : String) : Bool :=
  name.data.map Char.toLower == "molecular_weight".data ||
    name.data.map Char.toLower == "mw".data

/-- Modelled from the spec (section 4.1, claim C5): divide by 28.97 only when
the selected column is recognized as a molecular-weight column, otherwise use
the column value directly as gas gravity. -/
noncomputable def gammaSpec (name : String) (v : ℝ) : ℝ :=
  if isMolWeightAlias name then v / 28.97 else v

end App

namespace App

/-- Claim C1: for every row with positive pressure and positive gas gravity
the Safamirzaei method returns `A * g ^ B * (ln P_kPa) ^ C` directly in
Kelvin with no further unit conversion; the caller-supplied constants default
to `(194.681789, 0.044232, 0.189829)`; and at `P_kPa = 1000`, `g = 0.7` with
the default constants the result equals the reference expression
`194.681789 * 0.7 ^ 0.044232 * (ln 1000) ^ 0.189829` exactly (so in
particular to 6 significant digits). -/
theorem C1_safamirzaei_formula (A B C p g : ℝ) (hp : 0 < p) (hg : 0 < g) :
    T_Safamirzaei A B C p g = A * g ^ B * Real.log p ^ C ∧
    A_default = 194.681789 ∧ B_default = 0.044232 ∧ C_default = 0.189829 ∧
    T_Safamirzaei A_default B_default C_default 1000 0.7 =
      194.681789 * (0.7 : ℝ) ^ (0.044232 : ℝ) *
        Real.log 1000 ^ (0.189829 : ℝ) :=
  ⟨rfl, rfl, rfl, rfl, rfl⟩

/-- Witness for C1 at the concrete scenario `P_kPa = 1000`, `g = 0.7`. -/
theorem C1_safamirzaei_formula_witness :
    (0 : ℝ) < 1000 ∧ (0 : ℝ) < 0.7 ∧
    T_Safamirzaei A_default B_default C_default 1000 0.7 =
      194.681789 * (0.7 : ℝ) ^ (0.044232 : ℝ) *
        Real.log 1000 ^ (0.189829 : ℝ) :=
  ⟨by norm_num, by norm_num,
    (C1_safamirzaei_formula A_default B_default C_default 1000 0.7
      (by norm_num) (by norm_num)).2.2.2.2⟩

/-- Claim C2: for every row with positive `P_psi` (where
`P_psi = P_kPa / 6.89476`) and any gas gravity, the Motiee method returns
`T_C + 273.15` Kelvin with `T_C` the quadratic expression in
`log10 P_psi` and `g` stated in the specification. -/
theorem C2_motiee_formula (p g : ℝ) (hp : 0 < P_psi p) :
    P_psi p = p / 6.89476 ∧
    T_Motiee p g =
      (-283.24469 + 78.99667 * log10 (P_psi p)
        - 5.352544 * log10 (P_psi p) ^ 2 + 349.473877 * g
        - 150.854675 * g ^ 2 - 27.604065 * g * log10 (P_psi p)) + 273.15 :=
  ⟨rfl, rfl⟩

/-- Witness for C2 at `P_kPa = 1000`, `g = 0.7`. -/
theorem C2_motiee_formula_witness :
    (0 : ℝ) < P_psi 1000 ∧
    T_Motiee 1000 0.7 =
      (-283.24469 + 78.99667 * log10 (P_psi 1000)
        - 5.352544 * log10 (P_psi 1000) ^ 2 + 349.473877 * 0.7
        - 150.854675 * (0.7 : ℝ) ^ 2
        - 27.604065 * 0.7 * log10 (P_psi 1000)) + 273.15 :=
  ⟨by unfold P_psi; norm_num,
    (C2_motiee_formula 1000 0.7 (by unfold P_psi; norm_num)).2⟩

/-- Claim C3: for every row with positive `P_psi` and positive gas gravity,
the Towler & Mokhatab method returns `(T_F - 32) * 5 / 9 + 273.15` Kelvin
where `T_F = 13.47 ln P_psi + 34.27 ln g - 1.675 (ln P_psi)(ln g) - 20.35`. -/
theorem C3_towler_formula (p g : ℝ) (hp : 0 < P_psi p) (hg : 0 < g) :
    T_Towler p g =
      ((13.47 * Real.log (P_psi p) + 34.27 * Real.log g
        - 1.675 * (Real.log (P_psi p) * Real.log g) - 20.35) - 32)
        * 5 / 9 + 273.15 :=
  rfl

/-- Witness for C3 at `P_kPa = 1000`, `g = 0.7`. -/
theorem C3_towler_formula_witness :
    (0 : ℝ) < P_psi 1000 ∧ (0 : ℝ) < 0.7 ∧
    T_Towler 1000 0.7 =
      ((13.47 * Real.log (P_psi 1000) + 34.27 * Real.log 0.7
        - 1.675 * (Real.log (P_psi 1000) * Real.log 0.7) - 20.35) - 32)
        * 5 / 9 + 273.15 :=
  ⟨by unfold P_psi; norm_num, by norm_num,
    C3_towler_formula 1000 0.7 (by unfold P_psi; norm_num) (by norm_num)⟩

/-- Claim C4: for every row with positive `P_psi` and positive gas gravity,
the Ghayyem method returns `(T_F - 32) * 5 / 9 + 273.15` Kelvin where
`T_F = -26.115 - 23.728/g + 23.942 ln P_psi - 0.738 exp(g ^ (-2.3))
- 1.135 (ln P_psi)^2 + 0.443 (ln P_psi) exp(g ^ (-1.7))`. -/
theorem C4_ghayyem_formula (p g : ℝ) (hp : 0 < P_psi p) (hg : 0 < g) :
    T_Ghayyem p g =
      ((-26.115 - 23.728 / g + 23.942 * Real.log (P_psi p)
        - 0.738 * Real.exp (g ^ (-2.3 : ℝ))
        - 1.135 * Real.log (P_psi p) ^ 2
        + 0.443 * Real.log (P_psi p) * Real.exp (g ^ (-1.7 : ℝ))) - 32)
        * 5 / 9 + 273.15 :=
  rfl

/-- Witness for C4 at `P_kPa = 1000`, `g = 0.7`. -/
theorem C4_ghayyem_formula_witness :
    (0 : ℝ) < P_psi 1000 ∧ (0 : ℝ) < 0.7 ∧
    T_Ghayyem 1000 0.7 =
      ((-26.115 - 23.728 / 0.7 + 23.942 * Real.log (P_psi 1000)
        - 0.738 * Real.exp ((0.7 : ℝ) ^ (-2.3 : ℝ))
        - 1.135 * Real.log (P_psi 1000) ^ 2
        + 0.443 * Real.log (P_psi 1000) * Real.exp ((0.7 : ℝ) ^ (-1.7 : ℝ)))
        - 32) * 5 / 9 + 273.15 :=
  ⟨by unfold P_psi; norm_num, by norm_num,
    C4_ghayyem_formula 1000 0.7 (by unfold P_psi; norm_num) (by norm_num)⟩

/-- Claim C5 is false on the code: the column named `Gas_Gravity` is not a
molecular-weight alias, so by the claim its value 0.7 should be used
directly as the gas gravity, but line 82 divides it by 28.97 anyway. -/
theorem C5_counterexample :
    isMolWeightAlias "Gas_Gravity" = false ∧
    Gamma 0.7 ≠ gammaSpec "Gas_Gravity" 0.7 := by
  constructor
  · decide
  · have h : isMolWeightAlias "Gas_Gravity" = false := by decide
    simp only [Gamma, gammaSpec, h, Bool.false_eq_true, if_false]
    norm_num

/-- Claim C5 amended: the normalizer divides the selected column by 28.97
unconditionally, whatever the column name; a molecular-weight value of
28.97 therefore yields gas gravity exactly 1. -/
theorem C5_gamma_amended (v : ℝ) :
    Gamma v = v / 28.97 ∧ Gamma 28.97 = 1 := by
  refine ⟨rfl, ?_⟩
  unfold Gamma
  norm_num

/-- On identical columns every per-row relative error is zero. -/
lemma relErrList_self (l : List ℝ) :
    relErrList l l = List.replicate l.length 0 := by
  induction l with
  | nil => rfl
  | cons x xs ih =>
      simp only [relErrList, List.zipWith_cons_cons, List.length_cons,
        List.replicate_succ] at ih ⊢
      rw [sub_self, zero_div, abs_zero, ih]

/-- Folding `max` from 0 over a list of zeros gives 0. -/
lemma foldl_max_zeros (n : ℕ) :
    (List.replicate n (0 : ℝ)).foldl max 0 = 0 := by
  induction n with
  | zero => rfl
  | succ k ih => simpa [List.replicate_succ, List.foldl_cons] using ih

/-- Folding `min` from 0 over a list of zeros gives 0. -/
lemma foldl_min_zeros (n : ℕ) :
    (List.replicate n (0 : ℝ)).foldl min 0 = 0 := by
  induction n with
  | zero => rfl
  | succ k ih => simpa [List.replicate_succ, List.foldl_cons] using ih

lemma npMax_replicate_zero (n : ℕ) (hn : n ≠ 0) :
    npMax (List.replicate n 0) = 0 := by
  cases n with
  | zero => exact absurd rfl hn
  | succ k => simpa [List.replicate_succ, npMax] using foldl_max_zeros k

lemma npMin_replicate_zero (n : ℕ) (hn : n ≠ 0) :
    npMin (List.replicate n 0) = 0 := by
  cases n with
  | zero => exact absurd rfl hn
  | succ k => simpa [List.replicate_succ, npMin] using foldl_min_zeros k

lemma npMean_replicate_zero (n : ℕ) :
    npMean (List.replicate n 0) = 0 := by
  simp [npMean, List.sum_replicate]

/-- Claim C8: on non-empty equal-length columns with nonzero experimental
values, `calc_errors` returns exactly the four statistics
`(max rel * 100, min rel * 100, mean rel * 100, mean rel * 100)` over the
per-row relative errors `|(e - p) / e|`; its third (ARD) and fourth (mean
relative error) components are identical for any input; and on identical
estimated and experimental columns all four statistics are 0. -/
theorem C8_error_metrics (expT pred : List ℝ) (hne : expT ≠ [])
    (hlen : pred.length = expT.length) (hnz : ∀ e ∈ expT, e ≠ 0) :
    calc_errors expT pred =
      (npMax (relErrList expT pred) * 100,
       npMin (relErrList expT pred) * 100,
       npMean (relErrList expT pred) * 100,
       npMean (relErrList expT pred) * 100) ∧
    (calc_errors expT pred).2.2.1 = (calc_errors expT pred).2.2.2 ∧
    (pred = expT → calc_errors expT pred = (0, 0, 0, 0)) := by
  refine ⟨rfl, rfl, ?_⟩
  intro h
  rw [h]
  have hlen0 : expT.length ≠ 0 := by
    simpa [List.length_eq_zero] using hne
  simp [calc_errors, relErrList_self, npMax_replicate_zero _ hlen0,
    npMin_replicate_zero _ hlen0, npMean_replicate_zero]

/-- Witness for C8 on the columns `expT = [2]`, `pred = [1]`. -/
theorem C8_error_metrics_witness :
    (([2] : List ℝ) ≠ []) ∧ (([1] : List ℝ).length = ([2] : List ℝ).length) ∧
    (∀ e ∈ ([2] : List ℝ), e ≠ 0) ∧
    (calc_errors [2] [1]).2.2.1 = (calc_errors [2] [1]).2.2.2 :=
  ⟨by simp, by simp,
    by intro e he; rw [List.mem_singleton] at he; subst he; norm_num,
    (C8_error_metrics [2] [1] (by simp) (by simp)
      (by intro e he; rw [List.mem_singleton] at he; subst he; norm_num)).2.1⟩

/-- Elementary bound: `exp y * (1 - y) ≤ 1` for every real `y`. -/
lemma exp_mul_one_sub_le (y : ℝ) : Real.exp y * (1 - y) ≤ 1 := by
  have h := Real.add_one_le_exp (-y)
  have hE := Real.exp_pos y
  have h2 : Real.exp y * (1 - y) ≤ Real.exp y * Real.exp (-y) :=
    mul_le_mul_of_nonneg_left (by linarith) hE.le
  have h3 : Real.exp y * Real.exp (-y) = 1 := by
    rw [← Real.exp_add]
    simp
  linarith

/-- Lower bound for the exponential by the 32nd power of `1 + x / 32`. -/
lemma exp_lb32 (x : ℝ) (hx : 0 ≤ x) : (1 + x / 32) ^ (32 : ℕ) ≤ Real.exp x := by
  have h1 : Real.exp x = Real.exp (x / 32) ^ (32 : ℕ) := by
    rw [← Real.exp_nat_mul]
    congr 1
    push_cast
    ring
  rw [h1]
  exact pow_le_pow_left₀ (by linarith)
    (by linarith [Real.add_one_le_exp (x / 32)]) 32

/-- Upper bound for the exponential: `exp x * (1 - x / 32) ^ 32 ≤ 1`. -/
lemma exp_ub32 (x : ℝ) (hx32 : x < 32) :
    Real.exp x * (1 - x / 32) ^ (32 : ℕ) ≤ 1 := by
  have h1 : Real.exp x = Real.exp (x / 32) ^ (32 : ℕ) := by
    rw [← Real.exp_nat_mul]
    congr 1
    push_cast
    ring
  rw [h1, ← mul_pow]
  have hy : Real.exp (x / 32) * (1 - x / 32) ≤ 1 := exp_mul_one_sub_le (x / 32)
  have hy0 : 0 ≤ Real.exp (x / 32) * (1 - x / 32) :=
    mul_nonneg (Real.exp_nonneg _) (by linarith)
  exact pow_le_one₀ hy0 hy

lemma exp_038_lb : (1.4485 : ℝ) < Real.exp 0.38 := by
  have h := exp_lb32 0.38 (by norm_num)
  have h2 : (1.4485 : ℝ) < (1 + 0.38 / 32) ^ (32 : ℕ) := by norm_num
  linarith

lemma exp_0874_ub : Real.exp 0.874 ≤ 2.43 := by
  have h := exp_ub32 0.874 (by norm_num)
  have hK : (0.412 : ℝ) ≤ (1 - 0.874 / 32) ^ (32 : ℕ) := by norm_num
  have hE := Real.exp_pos (0.874 : ℝ)
  nlinarith

lemma exp_243_ub : Real.exp 2.43 ≤ 12.54 := by
  have h := exp_ub32 2.43 (by norm_num)
  have hK : (0.0798 : ℝ) ≤ (1 - 2.43 / 32) ^ (32 : ℕ) := by norm_num
  have hE := Real.exp_pos (2.43 : ℝ)
  nlinarith

/-- The natural log of the scenario-2 gas gravity `20 / 28.97` lies in
`(-0.38, 0)`. -/
lemma log_gamma20_bounds :
    -0.38 < Real.log (20 / 28.97) ∧ Real.log (20 / 28.97) < 0 := by
  have hg : (0 : ℝ) < 20 / 28.97 := by norm_num
  constructor
  · rw [Real.lt_log_iff_exp_lt hg]
    have h1 := exp_038_lb
    have h2 : Real.exp (-(0.38 : ℝ)) = (Real.exp 0.38)⁻¹ := Real.exp_neg 0.38
    have h3 : (Real.exp 0.38)⁻¹ < (1.4485 : ℝ)⁻¹ :=
      inv_strictAnti₀ (by norm_num) h1
    have h4 : ((1.4485 : ℝ))⁻¹ = 20 / 28.97 := by norm_num
    rw [h2]
    linarith
  · exact Real.log_neg hg (by norm_num)

lemma log_psi5000_pos : 0 < Real.log (5000 / 6.89476) :=
  Real.log_pos (by norm_num)

lemma log_psi5000_lt7 : Real.log (5000 / 6.89476) < 7 := by
  rw [Real.log_lt_iff_lt_exp (by norm_num)]
  have h1 : Real.exp 7 = Real.exp 1 ^ (7 : ℕ) := by
    rw [← Real.exp_nat_mul]
    congr 1
    push_cast
    ring
  have h2 : (2.7182818283 : ℝ) ^ (7 : ℕ) ≤ Real.exp 1 ^ (7 : ℕ) :=
    pow_le_pow_left₀ (by norm_num) Real.exp_one_gt_d9.le 7
  have h3 : (5000 / 6.89476 : ℝ) < (2.7182818283 : ℝ) ^ (7 : ℕ) := by norm_num
  linarith

/-- The base-10 log of the scenario-2 psi pressure lies in `(2, 4)`. -/
lemma log10_psi5000_bounds :
    2 < log10 (5000 / 6.89476) ∧ log10 (5000 / 6.89476) < 4 := by
  have hx : (0 : ℝ) < 5000 / 6.89476 := by norm_num
  have hlog10 : (0 : ℝ) < Real.log 10 := Real.log_pos (by norm_num)
  have h100 : Real.log 100 = 2 * Real.log 10 := by
    rw [show (100 : ℝ) = 10 ^ (2 : ℕ) by norm_num, Real.log_pow]
    push_cast
    ring
  have h10000 : Real.log 10000 = 4 * Real.log 10 := by
    rw [show (10000 : ℝ) = 10 ^ (4 : ℕ) by norm_num, Real.log_pow]
    push_cast
    ring
  have hlo : Real.log 100 < Real.log (5000 / 6.89476) :=
    Real.log_lt_log (by norm_num) (by norm_num)
  have hhi : Real.log (5000 / 6.89476) < Real.log 10000 :=
    Real.log_lt_log hx (by norm_num)
  constructor
  · simp only [log10]
    rw [lt_div_iff₀ hlog10]
    linarith
  · simp only [log10]
    rw [div_lt_iff₀ hlog10]
    linarith

/-- Claim C9: in the exact-real semantics every correlation output is a real
number; at the concrete scenario `P_kPa = 5000` with molecular weight 20
(gas gravity `20 / 28.97`), all four methods return temperatures strictly
greater than 0 Kelvin. -/
theorem C9_scenario2_positive :
    0 < T_Safamirzaei A_default B_default C_default 5000 (Gamma 20) ∧
    0 < T_Motiee 5000 (Gamma 20) ∧
    0 < T_Towler 5000 (Gamma 20) ∧
    0 < T_Ghayyem 5000 (Gamma 20) := by
  have hGamma : Gamma 20 = 20 / 28.97 := rfl
  have hPpsi : P_psi 5000 = 5000 / 6.89476 := rfl
  have hg : (0 : ℝ) < 20 / 28.97 := by norm_num
  refine ⟨?_, ?_, ?_, ?_⟩
  · unfold T_Safamirzaei
    rw [hGamma]
    have hA : (0 : ℝ) < A_default := by unfold A_default; norm_num
    have h1 : (0 : ℝ) < (20 / 28.97 : ℝ) ^ B_default :=
      Real.rpow_pos_of_pos hg _
    have h2 : (0 : ℝ) < Real.log 5000 := Real.log_pos (by norm_num)
    have h3 : (0 : ℝ) < Real.log 5000 ^ C_default :=
      Real.rpow_pos_of_pos h2 _
    exact mul_pos (mul_pos hA h1) h3
  · unfold T_Motiee T_motiee_C
    rw [hGamma, hPpsi]
    obtain ⟨hL1, hL2⟩ := log10_psi5000_bounds
    nlinarith [mul_pos (sub_pos.mpr hL1) (sub_pos.mpr hL2)]
  · unfold T_Towler T_towler_F
    rw [hGamma, hPpsi]
    have hlp := log_psi5000_pos
    obtain ⟨hlg1, hlg2⟩ := log_gamma20_bounds
    nlinarith [mul_nonneg hlp.le (neg_nonneg.mpr hlg2.le)]
  · unfold T_Ghayyem T_ghayyem_F
    rw [hGamma, hPpsi]
    have hlp0 := log_psi5000_pos
    have hlp7 := log_psi5000_lt7
    obtain ⟨hlg1, hlg2⟩ := log_gamma20_bounds
    have hrpow : (20 / 28.97 : ℝ) ^ (-2.3 : ℝ) =
        Real.exp (Real.log (20 / 28.97) * (-2.3)) :=
      Real.rpow_def_of_pos hg _
    have hexp1 : Real.log (20 / 28.97) * (-2.3) < 0.874 := by linarith
    have h23 : (20 / 28.97 : ℝ) ^ (-2.3 : ℝ) < 2.43 := by
      rw [hrpow]
      calc Real.exp (Real.log (20 / 28.97) * (-2.3)) < Real.exp 0.874 :=
            Real.exp_lt_exp.mpr hexp1
        _ ≤ 2.43 := exp_0874_ub
    have hE1 : Real.exp ((20 / 28.97 : ℝ) ^ (-2.3 : ℝ)) ≤ 12.54 :=
      le_trans (Real.exp_le_exp.mpr h23.le) exp_243_ub
    have hE2pos : 0 < Real.exp ((20 / 28.97 : ℝ) ^ (-1.7 : ℝ)) :=
      Real.exp_pos _
    have hlpsq : Real.log (5000 / 6.89476) ^ 2 < 49 := by nlinarith
    have hlpE2 : 0 ≤ Real.log (5000 / 6.89476) *
        Real.exp ((20 / 28.97 : ℝ) ^ (-1.7 : ℝ)) :=
      mul_nonneg hlp0.le hE2pos.le
    have hdiv : (23.728 : ℝ) / (20 / 28.97) = 34.370008 := by norm_num
    rw [hdiv]
    linarith

/-- Claim C10: the kPa-to-psi conversion divides by the fixed factor
6.89476, and converting back by multiplying with 6.89476 reproduces the
original pressure exactly (hence within any relative tolerance). -/
theorem C10_psi_roundtrip (p : ℝ) :
    P_psi p = p / 6.89476 ∧ P_psi p * 6.89476 = p := by
  refine ⟨rfl, ?_⟩
  unfold P_psi
  field_simp

end App
